import Mathlib

/-!
A verification development of the query service in `src/app/lib/data.ts`.

The data-access layer is embedded shallowly: the external database
collaborator's replies are the `{ data, error }` / `{ count, error }`
records it returns, its query chains (filter, order, range, limit,
single, embedded join) are modelled as pure functions over an explicit
database value, and each fetch operation is the translation of the
corresponding source function, returning `Except` where the source
throws.  Text filters (`.ilike.%q%`) are case-insensitive substring
matching; text ordering is lexicographic on the character list.
-/

namespace NextjsDashboard

/-- A row of the `customers` table. -/
structure Customer where
  id : String
  name : String
  email : String
  image_url : String
deriving Repr, DecidableEq

/-- A row of the `invoices` table; `amount` is stored in minor units (cents). -/
structure Invoice where
  id : String
  customer_id : String
  amount : Int
  date : String
  status : String
deriving Repr, DecidableEq

/-- The database state visible to the query service. -/
structure DB where
  invoices : List Invoice
  customers : List Customer
deriving Repr, DecidableEq

/-- A `{ data, error }` reply of the database collaborator. -/
structure SupaResp (α : Type) where
  data : Option α
  error : Option String
deriving Repr, DecidableEq

/-- A `{ count, error }` reply of the database collaborator (a head count request). -/
structure SupaCountResp where
  count : Option Nat
  error : Option String
deriving Repr, DecidableEq

/-- A successful `{ data, error: null }` reply. -/
def okData {α : Type} (a : α) : SupaResp α :=
  { data := some a, error := none }

/-- A successful `{ count, error: null }` reply. -/
def okCount (n : Nat) : SupaCountResp :=
  { count := some n, error := none }

/-- Lower-case one ASCII character (`ilike` matching is case-insensitive). -/
def lowerChar (c : Char) : Char :=
  if 'A' ≤ c ∧ c ≤ 'Z' then Char.ofNat (c.toNat + 32) else c

/-- The character list of a string, lower-cased. -/
def lowerStr (s : String) : List Char :=
  s.data.map lowerChar

/-- Does `needle` occur as a contiguous substring of the second list? -/
def hasSub (needle : List Char) : List Char → Bool
  | [] => needle.isEmpty
  | c :: rest => needle.isPrefixOf (c :: rest) || hasSub needle rest

/-- `col ilike %q%`: the collaborator's case-insensitive substring match used by
the `.or(...)` filters of the source. -/
def ilikeContains (q col : String) : Bool :=
  hasSub (lowerStr q) (lowerStr col)

/-- The collaborator's ordering on text columns: lexicographic on characters. -/
def strLe (a b : String) : Prop :=
  a.data ≤ b.data

instance : DecidableRel strLe :=
  fun a b => inferInstanceAs (Decidable (a.data ≤ b.data))

/-- `order("date", { ascending: false })`: newest date first. -/
def dateDesc (a b : Invoice) : Prop :=
  strLe b.date a.date

instance : DecidableRel dateDesc :=
  fun a b => inferInstanceAs (Decidable (strLe b.date a.date))

instance : IsTotal Invoice dateDesc where
  total a b := by
    unfold dateDesc strLe
    exact le_total b.date.data a.date.data

instance : IsTrans Invoice dateDesc where
  trans a b c hab hbc := by
    unfold dateDesc strLe at *
    exact le_trans hbc hab

/-- The customers embedded into an invoice row by the relationship
`customers ( ... )`: the rows of `customers` matching the invoice's foreign key. -/
def customersOf (db : DB) (inv : Invoice) : List Customer :=
  db.customers.filter (fun c => c.id == inv.customer_id)

/-- An `amount, status` projection row of `invoices`. -/
structure AmountStatus where
  amount : Int
  status : String
deriving Repr, DecidableEq

/-- The record returned by `fetchCardData`. -/
structure CardData where
  numberOfCustomers : Nat
  numberOfInvoices : Nat
  totalPaidInvoices : String
  totalPendingInvoices : String
deriving Repr, DecidableEq

/-- Insert a thousands separator after every three digits
(the input is the reversed digit list). -/
def groupDigits : List Char → List Char
  | d1 :: d2 :: d3 :: d4 :: rest => d1 :: d2 :: d3 :: ',' :: groupDigits (d4 :: rest)
  | l => l

/-- Modelled from the spec: the currency-formatting collaborator
(`formatCurrency` of `src/app/lib/utils.ts`) is imported by the source but is
not among the source files; the spec describes it as converting a minor-unit
integer amount into a major-unit display string, e.g. 123456 to "$1,234.56". -/
def formatCurrency (n : Int) : String :=
  let m : Nat := n.natAbs
  let dollars : Nat := m / 100
  let cents : Nat := m % 100
  let centsStr : String := if cents < 10 then "0" ++ toString cents else toString cents
  let dollarsStr : String := String.mk (groupDigits (toString dollars).data.reverse).reverse
  (if n < 0 then "-$" else "$") ++ dollarsStr ++ "." ++ centsStr

/-- `fetchCardData`: three concurrent requests, destructured as
`{ count: invoiceCount }`, `{ count: customerCount }`, `{ data: invoiceStatus }`.
The source never inspects the `error` fields of the three replies and guards
missing data with `?.`/`?? 0`, so nothing in the body can throw: the catch
branch is unreachable and the function always returns a value. -/
def fetchCardData (invoiceCountResp customerCountResp : SupaCountResp)
    (invoiceStatusResp : SupaResp (List AmountStatus)) : Except String CardData :=
  let invoiceCount := invoiceCountResp.count
  let customerCount := customerCountResp.count
  let invoiceStatus := invoiceStatusResp.data
  let totalPaidInvoices := formatCurrency
    ((invoiceStatus.map (fun d =>
      d.foldl (fun acc inv => acc + (if inv.status == "paid" then inv.amount else 0)) 0)).getD 0)
  let totalPendingInvoices := formatCurrency
    ((invoiceStatus.map (fun d =>
      d.foldl (fun acc inv => acc + (if inv.status == "pending" then inv.amount else 0)) 0)).getD 0)
  Except.ok
    { numberOfCustomers := customerCount.getD 0
      numberOfInvoices := invoiceCount.getD 0
      totalPaidInvoices := totalPaidInvoices
      totalPendingInvoices := totalPendingInvoices }

/-- A raw row of the latest-invoices query (`amount, customers ( ... ), id`). -/
structure LatestRow where
  amount : Int
  customers : List Customer
  id : String
deriving Repr, DecidableEq

/-- An output record of `fetchLatestInvoices`. -/
structure LatestInvoice where
  id : String
  amount : Int
  name : String
  email : String
  image_url : String
deriving Repr, DecidableEq

/-- The generic error message of `fetchLatestInvoices`. -/
def latestErrMsg : String := "Failed to fetch the latest invoices."

/-- The collaborator's reply rows for the latest-invoices query:
order by date descending, limit 5, embed each invoice's customers. -/
def latestInvoicesRows (db : DB) : List LatestRow :=
  ((List.insertionSort dateDesc db.invoices).take 5).map (fun inv =>
    { amount := inv.amount, customers := customersOf db inv, id := inv.id })

/-- One step of the row mapping in `fetchLatestInvoices`;
`invoice.customers[0]` is modelled as `head?`, `none` standing for the
TypeError thrown on an empty array. -/
def mapLatestRow (invoice : LatestRow) : Option LatestInvoice :=
  match invoice.customers.head? with
  | some c => some
      { id := invoice.id
        amount := invoice.amount
        name := c.name
        email := c.email
        image_url := c.image_url }
  | none => none

/-- `data.map(...)` with a body that can throw: the first failing element
aborts the whole map. -/
def mapRows {α β : Type} (f : α → Option β) : List α → Option (List β)
  | [] => some []
  | r :: rs =>
    match f r, mapRows f rs with
    | some b, some bs => some (b :: bs)
    | _, _ => none

/-- `fetchLatestInvoices`, as a function of the collaborator's reply. -/
def fetchLatestInvoices (resp : SupaResp (List LatestRow)) :
    Except String (List LatestInvoice) :=
  if resp.error.isSome then Except.error latestErrMsg
  else
    match resp.data with
    | none => Except.error latestErrMsg
    | some rows =>
      match mapRows mapLatestRow rows with
      | some latestInvoices => Except.ok latestInvoices
      | none => Except.error latestErrMsg

/-- `fetchLatestInvoices` run against the database model. -/
def fetchLatestInvoicesOn (db : DB) : Except String (List LatestInvoice) :=
  fetchLatestInvoices (okData (latestInvoicesRows db))

/-- The `.or(...)` filter of `fetchFilteredInvoices` / `fetchInvoicesPages`:
case-insensitive substring match of the query against the joined customer's
name and email and the invoice's amount, date and status rendered as text. -/
def invoiceMatches (db : DB) (query : String) (inv : Invoice) : Bool :=
  (customersOf db inv).any (fun c =>
    ilikeContains query c.name || ilikeContains query c.email) ||
  ilikeContains query (toString inv.amount) ||
  ilikeContains query inv.date ||
  ilikeContains query inv.status

/-- `const ITEMS_PER_PAGE = 6`. -/
def ITEMS_PER_PAGE : Int := 6

/-- The generic error message of `fetchFilteredInvoices`. -/
def invoicesErrMsg : String := "Failed to fetch invoices."

/-- `const offset = (currentPage - 1) * ITEMS_PER_PAGE` — computed for any
integer page, with no validation or clamping. -/
def filteredInvoicesOffset (currentPage : Int) : Int :=
  (currentPage - 1) * ITEMS_PER_PAGE

/-- The inclusive pair passed to `.range(offset, offset + ITEMS_PER_PAGE - 1)`. -/
def filteredInvoicesRange (currentPage : Int) : Int × Int :=
  (filteredInvoicesOffset currentPage,
   filteredInvoicesOffset currentPage + ITEMS_PER_PAGE - 1)

/-- A raw row of the filtered-invoices query, with the embedded customers. -/
structure InvoiceJoinedRow where
  id : String
  amount : Int
  date : String
  status : String
  customer_id : String
  customers : List Customer
deriving Repr, DecidableEq

/-- An output record of `fetchFilteredInvoices`. -/
structure InvoicesTable where
  id : String
  customer_id : String
  amount : Int
  date : String
  status : String
  name : String
  email : String
  image_url : String
deriving Repr, DecidableEq

/-- Embed an invoice with its joined customers. -/
def joinedRow (db : DB) (inv : Invoice) : InvoiceJoinedRow :=
  { id := inv.id
    amount := inv.amount
    date := inv.date
    status := inv.status
    customer_id := inv.customer_id
    customers := customersOf db inv }

/-- All invoices matching the filter, ordered by date descending. -/
def filteredSortedInvoices (db : DB) (query : String) : List Invoice :=
  List.insertionSort dateDesc (db.invoices.filter (fun inv => invoiceMatches db query inv))

/-- The number of invoices matching the filter of `fetchFilteredInvoices`. -/
def totalMatches (db : DB) (query : String) : Nat :=
  (db.invoices.filter (fun inv => invoiceMatches db query inv)).length

/-- The collaborator's reply rows for the filtered-invoices query:
filter, order date descending, return rows `offset … offset + 5` inclusive. -/
def filteredInvoicesRows (db : DB) (query : String) (offset : Nat) :
    List InvoiceJoinedRow :=
  (((filteredSortedInvoices db query).drop offset).take 6).map (joinedRow db)

/-- One step of the row mapping in `fetchFilteredInvoices`;
`invoice.customers[0]` is modelled as `head?`. -/
def mapInvoiceRow (invoice : InvoiceJoinedRow) : Option InvoicesTable :=
  match invoice.customers.head? with
  | some c => some
      { id := invoice.id
        customer_id := invoice.customer_id
        amount := invoice.amount
        date := invoice.date
        status := invoice.status
        name := c.name
        email := c.email
        image_url := c.image_url }
  | none => none

/-- `fetchFilteredInvoices`, as a function of the collaborator's reply. -/
def fetchFilteredInvoices (resp : SupaResp (List InvoiceJoinedRow)) :
    Except String (List InvoicesTable) :=
  if resp.error.isSome then Except.error invoicesErrMsg
  else
    match resp.data with
    | none => Except.error invoicesErrMsg
    | some rows =>
      match mapRows mapInvoiceRow rows with
      | some invoices => Except.ok invoices
      | none => Except.error invoicesErrMsg

/-- `fetchFilteredInvoices` run against the database model, pages `1 ≤ p`. -/
def fetchFilteredInvoicesOn (db : DB) (query : String) (currentPage : Nat) :
    Except String (List InvoicesTable) :=
  fetchFilteredInvoices (okData (filteredInvoicesRows db query ((currentPage - 1) * 6)))

/-- The generic error message of `fetchInvoicesPages`. -/
def pagesErrMsg : String := "Failed to fetch total number of invoices."

/-- `Math.ceil(count / ITEMS_PER_PAGE)` on a natural count. -/
def ceilPages (count : Nat) : Nat :=
  (count + 5) / 6

/-- `fetchInvoicesPages`, as a function of the collaborator's count reply. -/
def fetchInvoicesPages (resp : SupaCountResp) : Except String Nat :=
  if resp.error.isSome then Except.error pagesErrMsg
  else Except.ok (ceilPages (resp.count.getD 0))

/-- `fetchInvoicesPages` run against the database model (the count request
uses the same `.or(...)` filter as `fetchFilteredInvoices`). -/
def fetchInvoicesPagesOn (db : DB) (query : String) : Except String Nat :=
  fetchInvoicesPages (okCount (totalMatches db query))

/-- The generic error message of `fetchInvoiceById`. -/
def invoiceErrMsg : String := "Failed to fetch invoice."

/-- The collaborator's no-single-row error (`.single()` with zero or
several matching rows). -/
def noRowsMsg : String := "JSON object requested, multiple (or no) rows returned"

/-- The output record of `fetchInvoiceById`; `amount` in major units. -/
structure InvoiceForm where
  id : String
  customer_id : String
  amount : Rat
  status : String
deriving Repr, DecidableEq

/-- `.eq("id", id).single()`: data exactly when one row matches, an error
reply otherwise. -/
def singleInvoiceResp (db : DB) (id : String) : SupaResp Invoice :=
  match db.invoices.filter (fun inv => inv.id == id) with
  | [inv] => okData inv
  | _ => { data := none, error := some noRowsMsg }

/-- `fetchInvoiceById`, as a function of the collaborator's reply:
`{ ...data, amount: data.amount / 100 }`. -/
def fetchInvoiceById (resp : SupaResp Invoice) : Except String InvoiceForm :=
  if resp.error.isSome then Except.error invoiceErrMsg
  else
    match resp.data with
    | none => Except.error invoiceErrMsg
    | some data =>
      Except.ok
        { id := data.id
          customer_id := data.customer_id
          amount := (data.amount : Rat) / 100
          status := data.status }

/-- `fetchInvoiceById` run against the database model. -/
def fetchInvoiceByIdOn (db : DB) (id : String) : Except String InvoiceForm :=
  fetchInvoiceById (singleInvoiceResp db id)

/-- An invoice embedded into a customer row (`invoices ( id, amount, status )`). -/
structure InvoiceEmbed where
  id : String
  amount : Int
  status : String
deriving Repr, DecidableEq

/-- A raw row of the filtered-customers query. -/
structure CustomerJoinedRow where
  id : String
  name : String
  email : String
  image_url : String
  invoices : Option (List InvoiceEmbed)
deriving Repr, DecidableEq

/-- An output record of `fetchFilteredCustomers`. -/
structure CustomersTableRow where
  id : String
  name : String
  email : String
  image_url : String
  total_invoices : Nat
  total_pending : Int
  total_paid : Int
deriving Repr, DecidableEq

/-- The generic error message of `fetchFilteredCustomers`. -/
def customersTableErrMsg : String := "Failed to fetch customer table."

/-- The `.or(...)` filter of `fetchFilteredCustomers`. -/
def customerMatches (query : String) (c : Customer) : Bool :=
  ilikeContains query c.name || ilikeContains query c.email

/-- `order("name")`: ascending by name. -/
def nameAsc (a b : Customer) : Prop :=
  strLe a.name b.name

instance : DecidableRel nameAsc :=
  fun a b => inferInstanceAs (Decidable (strLe a.name b.name))

/-- Project an invoice onto the embedded `id, amount, status` columns. -/
def invoiceEmbedOf (inv : Invoice) : InvoiceEmbed :=
  { id := inv.id, amount := inv.amount, status := inv.status }

/-- The collaborator's reply rows for the filtered-customers query:
filter by name/email, order by name, embed each customer's invoices. -/
def customersQueryRows (db : DB) (query : String) : List CustomerJoinedRow :=
  (List.insertionSort nameAsc (db.customers.filter (fun c => customerMatches query c))).map
    (fun c =>
      { id := c.id
        name := c.name
        email := c.email
        image_url := c.image_url
        invoices := some ((db.invoices.filter (fun inv => inv.customer_id == c.id)).map invoiceEmbedOf) })

/-- One step of the row mapping in `fetchFilteredCustomers`:
`customer.invoices?.reduce(...) ?? 0` and `customer.invoices?.length ?? 0`. -/
def mapCustomerRow (customer : CustomerJoinedRow) : CustomersTableRow :=
  let totalPending := (customer.invoices.map (fun invs =>
    invs.foldl (fun acc inv => acc + (if inv.status == "pending" then inv.amount else 0)) 0)).getD 0
  let totalPaid := (customer.invoices.map (fun invs =>
    invs.foldl (fun acc inv => acc + (if inv.status == "paid" then inv.amount else 0)) 0)).getD 0
  { id := customer.id
    name := customer.name
    email := customer.email
    image_url := customer.image_url
    total_invoices := (customer.invoices.map List.length).getD 0
    total_pending := totalPending
    total_paid := totalPaid }

/-- `fetchFilteredCustomers`, as a function of the collaborator's reply. -/
def fetchFilteredCustomers (resp : SupaResp (List CustomerJoinedRow)) :
    Except String (List CustomersTableRow) :=
  if resp.error.isSome then Except.error customersTableErrMsg
  else
    match resp.data with
    | none => Except.error customersTableErrMsg
    | some rows => Except.ok (rows.map mapCustomerRow)

/-- `fetchFilteredCustomers` run against the database model. -/
def fetchFilteredCustomersOn (db : DB) (query : String) :
    Except String (List CustomersTableRow) :=
  fetchFilteredCustomers (okData (customersQueryRows db query))

/-- A sample diagnostic error carried by a failed collaborator reply. -/
def sampleDbError : String := "connection refused"

/-- The invoice set of the spec's end-to-end card-data scenario. -/
def sampleInvoiceStatus : List AmountStatus :=
  [{ amount := 10000, status := "paid" },
   { amount := 5000, status := "pending" },
   { amount := 2000, status := "paid" }]

/-- The "paid" status value. -/
def paidStatus : String := "paid"

/-- The "pending" status value. -/
def pendingStatus : String := "pending"

/-- The empty query string (matches every row). -/
def emptyQuery : String := ""

/-- An empty database. -/
def dbEmpty : DB :=
  { invoices := [], customers := [] }

/-- A one-invoice, one-customer database used to instantiate theorems. -/
def w5db : DB :=
  { invoices :=
      [{ id := "i1", customer_id := "c1", amount := 3000, date := "2024-01-01", status := "paid" }]
    customers :=
      [{ id := "c1", name := "Alice", email := "a@x.io", image_url := "/a.png" }] }

/-- The invoice id present in `w5db`. -/
def w5invId : String := "i1"

/-- The form record `fetchInvoiceById` produces for the invoice of `w5db`. -/
def w5form : InvoiceForm :=
  { id := "i1", customer_id := "c1", amount := ((3000 : Int) : Rat) / 100, status := "paid" }

/-- A concrete customer used in the raw-row samples. -/
def wAlice : Customer :=
  { id := "c1", name := "Alice", email := "a@x.io", image_url := "/a.png" }

/-- A concrete latest-invoices raw row with a non-empty customers array. -/
def w9latestRows : List LatestRow :=
  [{ amount := 3000, customers := [wAlice], id := "i1" }]

/-- A concrete filtered-invoices raw row with a non-empty customers array. -/
def w9joinedRows : List InvoiceJoinedRow :=
  [{ id := "i1", amount := 3000, date := "2024-01-01", status := "paid",
     customer_id := "c1", customers := [wAlice] }]

/-- A left fold of `acc + (if stat x == s then amt x else 0)` sums the
amounts of exactly the rows whose status is `s`. -/
lemma foldl_if_sum {α : Type} (stat : α → String) (amt : α → Int) (s : String) :
    ∀ (l : List α) (a : Int),
      l.foldl (fun acc x => acc + (if stat x == s then amt x else 0)) a =
        a + ((l.filter (fun x => stat x == s)).map amt).sum := by
  intro l
  induction l with
  | nil => intro a; simp
  | cons x xs ih =>
    intro a
    by_cases hx : (stat x == s) = true
    · simp only [List.foldl_cons, List.filter_cons, hx, if_true, List.map_cons, List.sum_cons, ih]
      omega
    · simp only [List.foldl_cons, List.filter_cons, hx, if_false, Bool.false_eq_true, ih]
      omega

/-- If `f` succeeds on every element, the throwing map succeeds and its
output is related elementwise to the input. -/
lemma mapRows_eq_some {α β : Type} (f : α → Option β) :
    ∀ (l : List α), (∀ a ∈ l, (f a).isSome) →
      ∃ out, mapRows f l = some out ∧ List.Forall₂ (fun a b => f a = some b) l out := by
  intro l
  induction l with
  | nil => intro _; exact ⟨[], rfl, List.Forall₂.nil⟩
  | cons r rs ih =>
    intro h
    obtain ⟨out, hout, hrel⟩ := ih (fun a ha => h a (List.mem_cons_of_mem _ ha))
    obtain ⟨b, hb⟩ := Option.isSome_iff_exists.mp (h r (List.mem_cons_self _ _))
    refine ⟨b :: out, ?_, List.Forall₂.cons hb hrel⟩
    simp [mapRows, hb, hout]

/-- Transfer a pointwise function equality along a `Forall₂` relation. -/
lemma forall₂_map_eq {α β γ : Type} {R : α → β → Prop} {l : List α} {out : List β}
    (h : List.Forall₂ R l out) (g : β → γ) (g' : α → γ)
    (hg : ∀ a b, R a b → g b = g' a) : out.map g = l.map g' := by
  induction h with
  | nil => rfl
  | cons hab _ ihl => simp [List.map_cons, hg _ _ hab, ihl]

/-- Reduction of `fetchFilteredInvoices` on a successful reply whose
row mapping succeeds. -/
lemma fetchFilteredInvoices_okData {rows : List InvoiceJoinedRow}
    {out : List InvoicesTable} (h : mapRows mapInvoiceRow rows = some out) :
    fetchFilteredInvoices (okData rows) = Except.ok out := by
  unfold fetchFilteredInvoices okData
  simp [h]

/-- Reduction of `fetchLatestInvoices` on a successful reply whose
row mapping succeeds. -/
lemma fetchLatestInvoices_okData {rows : List LatestRow}
    {out : List LatestInvoice} (h : mapRows mapLatestRow rows = some out) :
    fetchLatestInvoices (okData rows) = Except.ok out := by
  unfold fetchLatestInvoices okData
  simp [h]

/-- A successful invoice-row mapping step preserves the date. -/
lemma mapInvoiceRow_date {row : InvoiceJoinedRow} {b : InvoicesTable}
    (h : mapInvoiceRow row = some b) : b.date = row.date := by
  unfold mapInvoiceRow at h
  cases hc : row.customers.head? with
  | none => rw [hc] at h; exact absurd h (by simp)
  | some c => rw [hc] at h; cases h; rfl

/-- A non-empty list has a `head?`. -/
lemma head?_isSome_of_ne_nil {α : Type} {l : List α} (h : l ≠ []) : l.head?.isSome := by
  cases l with
  | nil => exact absurd rfl h
  | cons a l => rfl

/-- Integer ceiling division by six, as a natural-number formula. -/
lemma ceil_div_six (n : Nat) : ⌈(n : ℚ) / 6⌉₊ = (n + 5) / 6 := by
  have h6 : (0 : ℚ) < 6 := by norm_num
  apply le_antisymm
  · rw [Nat.ceil_le, div_le_iff₀ h6]
    have hn : n ≤ (n + 5) / 6 * 6 := by omega
    calc (n : ℚ) ≤ (((n + 5) / 6 * 6 : ℕ) : ℚ) := by exact_mod_cast hn
    _ = (((n + 5) / 6 : ℕ) : ℚ) * 6 := by push_cast; ring
  · have hm : (n : ℚ) / 6 ≤ (⌈(n : ℚ) / 6⌉₊ : ℚ) := Nat.le_ceil _
    rw [div_le_iff₀ h6] at hm
    have : n ≤ ⌈(n : ℚ) / 6⌉₊ * 6 := by exact_mod_cast hm
    omega

/-- C1: the spec requires `fetchCardData` to fail as a whole when any of its
three concurrent sub-requests fails, returning no partial aggregate.  The code
never inspects the `error` fields of the three replies: with the invoice-count
sub-request failed, it still returns a degraded aggregate whose invoice count
is zero.  This evaluates the code at that failing input. -/
theorem c1_cardData_subrequest_error_returns_partial :
    fetchCardData { count := none, error := some sampleDbError } (okCount 7)
      (okData sampleInvoiceStatus) =
    Except.ok
      { numberOfCustomers := 7
        numberOfInvoices := 0
        totalPaidInvoices := formatCurrency 12000
        totalPendingInvoices := formatCurrency 5000 } := rfl

/-- C2: the spec requires every operation to replace any collaborator error
with its operation-specific generic error.  For `fetchCardData`, a failed
amount-and-status sub-request raises nothing at all: the operation returns a
successful value whose totals are formatted from zero.  This evaluates the
code at that failing input. -/
theorem c2_cardData_error_not_raised :
    fetchCardData (okCount 3) (okCount 4)
      { data := none, error := some sampleDbError } =
    Except.ok
      { numberOfCustomers := 4
        numberOfInvoices := 3
        totalPaidInvoices := formatCurrency 0
        totalPendingInvoices := formatCurrency 0 } := rfl

/-- C10: `fetchFilteredInvoices` performs no validation of its page argument:
for every integer `currentPage` it computes `offset = (currentPage - 1) * 6`
and passes the inclusive range `[offset, offset + 5]` to the collaborator, and
for `currentPage < 1` both requested bounds are negative rather than being
rejected or clamped. -/
theorem c10_no_page_validation (currentPage : Int) :
    filteredInvoicesRange currentPage =
      ((currentPage - 1) * 6, (currentPage - 1) * 6 + 5) ∧
    (currentPage < 1 →
      (filteredInvoicesRange currentPage).1 < 0 ∧
      (filteredInvoicesRange currentPage).2 < 0) := by
  have h1 : filteredInvoicesRange currentPage =
      ((currentPage - 1) * 6, (currentPage - 1) * 6 + 5) := by
    unfold filteredInvoicesRange filteredInvoicesOffset ITEMS_PER_PAGE
    refine Prod.ext rfl ?_
    show (currentPage - 1) * 6 + 6 - 1 = (currentPage - 1) * 6 + 5
    omega
  refine ⟨h1, fun h => ?_⟩
  rw [h1]
  constructor
  · show (currentPage - 1) * 6 < 0
    nlinarith
  · show (currentPage - 1) * 6 + 5 < 0
    nlinarith

/-- Witness for C10 at `currentPage = 0`: the requested range is `[-6, -1]`. -/
theorem c10_witness :
    filteredInvoicesRange 0 = (-6, -1) ∧ (filteredInvoicesRange 0).1 < 0 :=
  ⟨by decide, ((c10_no_page_validation 0).2 (by decide)).1⟩

/-- C4: `fetchInvoicesPages` returns the ceiling of the matching row count
(under the same filter as `fetchFilteredInvoices`) divided by six, and zero
when no row matches. -/
theorem c4_invoicesPages (db : DB) (query : String) :
    fetchInvoicesPagesOn db query =
      Except.ok ((totalMatches db query + 5) / 6) ∧
    (totalMatches db query + 5) / 6 = ⌈(totalMatches db query : ℚ) / 6⌉₊ ∧
    (totalMatches db query = 0 →
      fetchInvoicesPagesOn db query = Except.ok 0) := by
  refine ⟨rfl, (ceil_div_six _).symm, fun h => ?_⟩
  have h1 : fetchInvoicesPagesOn db query =
      Except.ok ((totalMatches db query + 5) / 6) := rfl
  rw [h1, h]

/-- Witness for C4 on the empty database: zero matches, zero pages. -/
theorem c4_witness :
    totalMatches dbEmpty emptyQuery = 0 ∧
    fetchInvoicesPagesOn dbEmpty emptyQuery = Except.ok 0 :=
  ⟨by decide, (c4_invoicesPages dbEmpty emptyQuery).2.2 (by decide)⟩

/-- C6: on successful replies, `fetchCardData` reports as `totalPaidInvoices`
the currency-formatted sum of amounts over exactly the invoices whose status
is "paid", analogously for "pending", and an empty invoice set yields the
formatted value of zero for both. -/
theorem c6_cardData_totals (ic cc : Nat) (l : List AmountStatus) :
    ∃ cd, fetchCardData (okCount ic) (okCount cc) (okData l) = Except.ok cd ∧
      cd.totalPaidInvoices = formatCurrency
        (((l.filter (fun inv => inv.status == "paid")).map (fun inv => inv.amount)).sum) ∧
      cd.totalPendingInvoices = formatCurrency
        (((l.filter (fun inv => inv.status == "pending")).map (fun inv => inv.amount)).sum) ∧
      (l = [] → cd.totalPaidInvoices = formatCurrency 0 ∧
        cd.totalPendingInvoices = formatCurrency 0) := by
  have hp : l.foldl (fun acc inv => acc + (if inv.status == "paid" then inv.amount else 0)) 0 =
      ((l.filter (fun inv => inv.status == "paid")).map (fun inv => inv.amount)).sum := by
    have h0 := foldl_if_sum (fun inv : AmountStatus => inv.status)
      (fun inv : AmountStatus => inv.amount) paidStatus l 0
    simpa using h0
  have hq : l.foldl (fun acc inv => acc + (if inv.status == "pending" then inv.amount else 0)) 0 =
      ((l.filter (fun inv => inv.status == "pending")).map (fun inv => inv.amount)).sum := by
    have h0 := foldl_if_sum (fun inv : AmountStatus => inv.status)
      (fun inv : AmountStatus => inv.amount) pendingStatus l 0
    simpa using h0
  refine ⟨_, rfl, congrArg formatCurrency hp, congrArg formatCurrency hq, fun hl => ?_⟩
  subst hl
  exact ⟨rfl, rfl⟩

/-- Witness for C6: the empty invoice set formats zero for both totals. -/
theorem c6_witness :
    ∃ cd, fetchCardData (okCount 1) (okCount 2) (okData ([] : List AmountStatus)) =
        Except.ok cd ∧
      cd.totalPaidInvoices = formatCurrency 0 ∧
      cd.totalPendingInvoices = formatCurrency 0 := by
  obtain ⟨cd, h1, -, -, h4⟩ := c6_cardData_totals 1 2 []
  obtain ⟨hp, hq⟩ := h4 rfl
  exact ⟨cd, h1, hp, hq⟩

/-- C5: whenever `fetchInvoiceById` succeeds, the returned `amount` is the
stored minor-unit amount divided by 100 exactly, and `id`, `customer_id` and
`status` are the stored row's fields unchanged. -/
theorem c5_invoiceById_conversion (db : DB) (id : String) (r : InvoiceForm)
    (h : fetchInvoiceByIdOn db id = Except.ok r) :
    ∃ inv ∈ db.invoices, inv.id = id ∧ r.id = inv.id ∧
      r.customer_id = inv.customer_id ∧ r.status = inv.status ∧
      r.amount = (inv.amount : Rat) / 100 := by
  unfold fetchInvoiceByIdOn fetchInvoiceById singleInvoiceResp at h
  cases hf : db.invoices.filter (fun inv => inv.id == id) with
  | nil =>
    rw [hf] at h
    have h' : (Except.error invoiceErrMsg : Except String InvoiceForm) = Except.ok r := h
    cases h'
  | cons inv rest =>
    cases rest with
    | nil =>
      rw [hf] at h
      have h' : (Except.ok
          { id := inv.id, customer_id := inv.customer_id,
            amount := (inv.amount : Rat) / 100, status := inv.status } :
          Except String InvoiceForm) = Except.ok r := h
      have hr := Except.ok.inj h'
      have hmem : inv ∈ db.invoices.filter (fun i => i.id == id) := by
        rw [hf]
        exact List.mem_cons_self _ _
      have hm := List.mem_filter.mp hmem
      refine ⟨inv, hm.1, eq_of_beq hm.2, ?_, ?_, ?_, ?_⟩
      · rw [← hr]
      · rw [← hr]
      · rw [← hr]
      · rw [← hr]
    | cons inv2 rest2 =>
      rw [hf] at h
      have h' : (Except.error invoiceErrMsg : Except String InvoiceForm) = Except.ok r := h
      cases h'

/-- Witness for C5 on `w5db`: the stored amount 3000 is returned as 30.00. -/
theorem c5_witness :
    ∃ inv ∈ w5db.invoices, inv.id = w5invId ∧ w5form.id = inv.id ∧
      w5form.customer_id = inv.customer_id ∧ w5form.status = inv.status ∧
      w5form.amount = (inv.amount : Rat) / 100 :=
  c5_invoiceById_conversion w5db w5invId w5form rfl

/-- A latest-invoices mapping step succeeds on a non-empty customers array. -/
lemma mapLatestRow_isSome {r : LatestRow} (h : r.customers ≠ []) :
    (mapLatestRow r).isSome := by
  unfold mapLatestRow
  cases hcl : r.customers with
  | nil => exact absurd hcl h
  | cons c cs => rfl

/-- A filtered-invoices mapping step succeeds on a non-empty customers array. -/
lemma mapInvoiceRow_isSome {r : InvoiceJoinedRow} (h : r.customers ≠ []) :
    (mapInvoiceRow r).isSome := by
  unfold mapInvoiceRow
  cases hcl : r.customers with
  | nil => exact absurd hcl h
  | cons c cs => rfl

/-- C9: the row mappings of `fetchLatestInvoices` and `fetchFilteredInvoices`
read `customers[0]` without an emptiness check (here: `head?` inside an
`Option`); under the precondition that every reply row carries a non-empty
customers array, neither mapping ever hits its error branch. -/
theorem c9_customers_index_safe (rows1 : List LatestRow)
    (rows2 : List InvoiceJoinedRow)
    (h1 : ∀ r ∈ rows1, r.customers ≠ [])
    (h2 : ∀ r ∈ rows2, r.customers ≠ []) :
    (mapRows mapLatestRow rows1).isSome ∧ (mapRows mapInvoiceRow rows2).isSome := by
  constructor
  · obtain ⟨out, hout, -⟩ :=
      mapRows_eq_some mapLatestRow rows1 (fun r hr => mapLatestRow_isSome (h1 r hr))
    rw [hout]
    rfl
  · obtain ⟨out, hout, -⟩ :=
      mapRows_eq_some mapInvoiceRow rows2 (fun r hr => mapInvoiceRow_isSome (h2 r hr))
    rw [hout]
    rfl

/-- Witness for C9 on concrete reply rows with non-empty customers arrays. -/
theorem c9_witness :
    (mapRows mapLatestRow w9latestRows).isSome ∧
    (mapRows mapInvoiceRow w9joinedRows).isSome :=
  c9_customers_index_safe w9latestRows w9joinedRows (by decide) (by decide)

/-- Field correspondence of a successful latest-invoices mapping step. -/
lemma mapLatestRow_fields {db : DB} {inv : Invoice} {b : LatestInvoice}
    (h : mapLatestRow
      { amount := inv.amount, customers := customersOf db inv, id := inv.id } = some b) :
    b.id = inv.id ∧ b.amount = inv.amount ∧
      ∃ c, (customersOf db inv).head? = some c ∧
        b.name = c.name ∧ b.email = c.email ∧ b.image_url = c.image_url := by
  unfold mapLatestRow at h
  dsimp only at h
  cases hc : (customersOf db inv).head? with
  | none => rw [hc] at h; cases h
  | some c =>
    rw [hc] at h
    cases h
    exact ⟨rfl, rfl, c, rfl, rfl, rfl, rfl⟩

/-- C7: under referential integrity of the customer join, `fetchLatestInvoices`
succeeds, returns `min 5 totalInvoiceCount` records, drawn in order from the
date-descending sorted invoices, and each record carries its customer's name,
email and image and the invoice's numeric amount. -/
theorem c7_latestInvoices (db : DB)
    (hcust : ∀ inv ∈ db.invoices, customersOf db inv ≠ []) :
    ∃ out, fetchLatestInvoicesOn db = Except.ok out ∧
      out.length = min 5 db.invoices.length ∧
      List.Sorted dateDesc ((List.insertionSort dateDesc db.invoices).take 5) ∧
      List.Forall₂
        (fun inv b =>
          b.id = inv.id ∧ b.amount = inv.amount ∧
          ∃ c, (customersOf db inv).head? = some c ∧
            b.name = c.name ∧ b.email = c.email ∧ b.image_url = c.image_url)
        ((List.insertionSort dateDesc db.invoices).take 5) out := by
  have hsub : ∀ inv ∈ (List.insertionSort dateDesc db.invoices).take 5,
      inv ∈ db.invoices := by
    intro inv hi
    exact (List.mem_insertionSort dateDesc).mp (List.take_subset _ _ hi)
  have hall : ∀ r ∈ latestInvoicesRows db, (mapLatestRow r).isSome := by
    intro r hr
    unfold latestInvoicesRows at hr
    obtain ⟨inv, hi, rfl⟩ := List.mem_map.mp hr
    refine mapLatestRow_isSome ?_
    show customersOf db inv ≠ []
    exact hcust inv (hsub inv hi)
  obtain ⟨out, hout, hrel⟩ := mapRows_eq_some mapLatestRow (latestInvoicesRows db) hall
  have hlen := hrel.length_eq
  refine ⟨out, fetchLatestInvoices_okData hout, ?_, ?_, ?_⟩
  · rw [← hlen]
    unfold latestInvoicesRows
    rw [List.length_map, List.length_take, List.length_insertionSort]
  · exact List.Pairwise.sublist (List.take_sublist _ _)
      (List.sorted_insertionSort dateDesc db.invoices)
  · unfold latestInvoicesRows at hrel
    have h2 := List.forall₂_map_left_iff.mp hrel
    exact List.Forall₂.imp (fun inv b hb => mapLatestRow_fields hb) h2

/-- Witness for C7 on `w5db`. -/
theorem c7_witness :
    ∃ out, fetchLatestInvoicesOn w5db = Except.ok out ∧
      out.length = min 5 w5db.invoices.length ∧
      List.Sorted dateDesc ((List.insertionSort dateDesc w5db.invoices).take 5) ∧
      List.Forall₂
        (fun inv b =>
          b.id = inv.id ∧ b.amount = inv.amount ∧
          ∃ c, (customersOf w5db inv).head? = some c ∧
            b.name = c.name ∧ b.email = c.email ∧ b.image_url = c.image_url)
        ((List.insertionSort dateDesc w5db.invoices).take 5) out :=
  c7_latestInvoices w5db (by decide)

/-- C3: for every query and every page `p ≥ 1`, `fetchFilteredInvoices`
requests rows at offset `(p - 1) * 6`, succeeds under referential integrity of
the customer join, returns at most 6 rows ordered by date descending, and its
row count is `min 6 (totalMatches - 6 * (p - 1))` (zero when the difference is
not positive, by truncated subtraction). -/
theorem c3_filteredInvoices_pagination (db : DB) (query : String) (currentPage : Nat)
    (_hpage : 1 ≤ currentPage)
    (hcust : ∀ inv ∈ db.invoices, customersOf db inv ≠ []) :
    filteredInvoicesOffset (currentPage : Int) = ((currentPage : Int) - 1) * 6 ∧
    ∃ out, fetchFilteredInvoicesOn db query currentPage = Except.ok out ∧
      out.length ≤ 6 ∧
      out.length = min 6 (totalMatches db query - (currentPage - 1) * 6) ∧
      List.Pairwise (fun a b : InvoicesTable => strLe b.date a.date) out := by
  refine ⟨rfl, ?_⟩
  have hall : ∀ r ∈ filteredInvoicesRows db query ((currentPage - 1) * 6),
      (mapInvoiceRow r).isSome := by
    intro r hr
    unfold filteredInvoicesRows at hr
    obtain ⟨inv, hi, rfl⟩ := List.mem_map.mp hr
    refine mapInvoiceRow_isSome ?_
    show customersOf db inv ≠ []
    have h1 : inv ∈ filteredSortedInvoices db query :=
      List.drop_subset _ _ (List.take_subset _ _ hi)
    unfold filteredSortedInvoices at h1
    have h2 := (List.mem_insertionSort dateDesc).mp h1
    exact hcust inv (List.mem_filter.mp h2).1
  obtain ⟨out, hout, hrel⟩ :=
    mapRows_eq_some mapInvoiceRow (filteredInvoicesRows db query ((currentPage - 1) * 6)) hall
  have hlen := hrel.length_eq
  have hrows : (filteredInvoicesRows db query ((currentPage - 1) * 6)).length =
      min 6 (totalMatches db query - (currentPage - 1) * 6) := by
    unfold filteredInvoicesRows filteredSortedInvoices totalMatches
    rw [List.length_map, List.length_take, List.length_drop, List.length_insertionSort]
  have hdates : out.map (fun b => b.date) =
      (((filteredSortedInvoices db query).drop ((currentPage - 1) * 6)).take 6).map
        (fun inv => inv.date) := by
    have h1 : out.map (fun b => b.date) =
        (filteredInvoicesRows db query ((currentPage - 1) * 6)).map (fun r => r.date) :=
      forall₂_map_eq hrel (fun b => b.date) (fun r => r.date)
        (fun a b hb => mapInvoiceRow_date hb)
    rw [h1]
    unfold filteredInvoicesRows
    rw [List.map_map]
    rfl
  refine ⟨out, fetchFilteredInvoices_okData hout, ?_, ?_, ?_⟩
  · rw [← hlen, hrows]
    exact min_le_left _ _
  · rw [← hlen, hrows]
  · have hsorted : List.Pairwise dateDesc
        (((filteredSortedInvoices db query).drop ((currentPage - 1) * 6)).take 6) := by
      refine List.Pairwise.sublist
        ((List.take_sublist _ _).trans (List.drop_sublist _ _)) ?_
      unfold filteredSortedInvoices
      exact List.sorted_insertionSort dateDesc _
    have h2 : List.Pairwise (fun x y : String => strLe y x) (out.map (fun b => b.date)) := by
      rw [hdates]
      exact List.pairwise_map.mpr hsorted
    exact List.pairwise_map.mp h2

/-- Witness for C3 on `w5db`, the empty query and page 1. -/
theorem c3_witness :
    (1 ≤ 1 ∧ ∀ inv ∈ w5db.invoices, customersOf w5db inv ≠ []) ∧
    (filteredInvoicesOffset ((1 : Nat) : Int) = (((1 : Nat) : Int) - 1) * 6 ∧
     ∃ out, fetchFilteredInvoicesOn w5db emptyQuery 1 = Except.ok out ∧
       out.length ≤ 6 ∧
       out.length = min 6 (totalMatches w5db emptyQuery - (1 - 1) * 6) ∧
       List.Pairwise (fun a b : InvoicesTable => strLe b.date a.date) out) :=
  ⟨⟨by decide, by decide⟩,
   c3_filteredInvoices_pagination w5db emptyQuery 1 (by decide) (by decide)⟩

/-- A fold of the card/customer kind over embedded invoice projections sums
the amounts of exactly the original rows with the given status. -/
lemma embeds_fold_sum (s : String) (l : List Invoice) :
    ((l.map invoiceEmbedOf).foldl
      (fun acc inv => acc + (if inv.status == s then inv.amount else 0)) 0) =
    ((l.filter (fun inv => inv.status == s)).map (fun inv => inv.amount)).sum := by
  have h0 := foldl_if_sum (fun e : InvoiceEmbed => e.status)
    (fun e : InvoiceEmbed => e.amount) s (l.map invoiceEmbedOf) 0
  simp only [zero_add] at h0
  have h1 : ((l.map invoiceEmbedOf).filter (fun e => e.status == s)).map (fun e => e.amount)
      = (l.filter (fun inv => inv.status == s)).map (fun inv => inv.amount) := by
    rw [List.filter_map, List.map_map]
    rfl
  rw [h1] at h0
  exact h0

/-- The aggregate fields of one mapped customer row of `fetchFilteredCustomers`. -/
lemma c8_pointwise (db : DB) (c : Customer) :
    (mapCustomerRow
      { id := c.id, name := c.name, email := c.email, image_url := c.image_url,
        invoices := some ((db.invoices.filter
          (fun inv => inv.customer_id == c.id)).map invoiceEmbedOf) }).total_invoices =
      (db.invoices.filter (fun inv => inv.customer_id == c.id)).length ∧
    (mapCustomerRow
      { id := c.id, name := c.name, email := c.email, image_url := c.image_url,
        invoices := some ((db.invoices.filter
          (fun inv => inv.customer_id == c.id)).map invoiceEmbedOf) }).total_pending =
      (((db.invoices.filter (fun inv => inv.customer_id == c.id)).filter
        (fun inv => inv.status == "pending")).map (fun inv => inv.amount)).sum ∧
    (mapCustomerRow
      { id := c.id, name := c.name, email := c.email, image_url := c.image_url,
        invoices := some ((db.invoices.filter
          (fun inv => inv.customer_id == c.id)).map invoiceEmbedOf) }).total_paid =
      (((db.invoices.filter (fun inv => inv.customer_id == c.id)).filter
        (fun inv => inv.status == "paid")).map (fun inv => inv.amount)).sum ∧
    ((db.invoices.filter (fun inv => inv.customer_id == c.id)) = [] →
      (mapCustomerRow
        { id := c.id, name := c.name, email := c.email, image_url := c.image_url,
          invoices := some ((db.invoices.filter
            (fun inv => inv.customer_id == c.id)).map invoiceEmbedOf) }).total_invoices = 0 ∧
      (mapCustomerRow
        { id := c.id, name := c.name, email := c.email, image_url := c.image_url,
          invoices := some ((db.invoices.filter
            (fun inv => inv.customer_id == c.id)).map invoiceEmbedOf) }).total_pending = 0 ∧
      (mapCustomerRow
        { id := c.id, name := c.name, email := c.email, image_url := c.image_url,
          invoices := some ((db.invoices.filter
            (fun inv => inv.customer_id == c.id)).map invoiceEmbedOf) }).total_paid = 0) := by
  have h1 : (mapCustomerRow
      { id := c.id, name := c.name, email := c.email, image_url := c.image_url,
        invoices := some ((db.invoices.filter
          (fun inv => inv.customer_id == c.id)).map invoiceEmbedOf) }).total_invoices =
      (db.invoices.filter (fun inv => inv.customer_id == c.id)).length := by
    show ((db.invoices.filter (fun inv => inv.customer_id == c.id)).map invoiceEmbedOf).length = _
    exact List.length_map _ _
  have h2 : (mapCustomerRow
      { id := c.id, name := c.name, email := c.email, image_url := c.image_url,
        invoices := some ((db.invoices.filter
          (fun inv => inv.customer_id == c.id)).map invoiceEmbedOf) }).total_pending =
      (((db.invoices.filter (fun inv => inv.customer_id == c.id)).filter
        (fun inv => inv.status == "pending")).map (fun inv => inv.amount)).sum :=
    embeds_fold_sum pendingStatus (db.invoices.filter (fun inv => inv.customer_id == c.id))
  have h3 : (mapCustomerRow
      { id := c.id, name := c.name, email := c.email, image_url := c.image_url,
        invoices := some ((db.invoices.filter
          (fun inv => inv.customer_id == c.id)).map invoiceEmbedOf) }).total_paid =
      (((db.invoices.filter (fun inv => inv.customer_id == c.id)).filter
        (fun inv => inv.status == "paid")).map (fun inv => inv.amount)).sum :=
    embeds_fold_sum paidStatus (db.invoices.filter (fun inv => inv.customer_id == c.id))
  refine ⟨h1, h2, h3, fun hnil => ⟨?_, ?_, ?_⟩⟩
  · rw [h1, hnil]
    rfl
  · rw [h2, hnil]
    rfl
  · rw [h3, hnil]
    rfl

/-- C8: `fetchFilteredCustomers` always succeeds on a successful reply, and in
every returned record `total_invoices` counts exactly the customer's joined
invoices, `total_pending` and `total_paid` sum the amounts of exactly its
pending and paid invoices, and a customer with zero invoices yields zero for
all three (the fields are total, never null). -/
theorem c8_filteredCustomers_aggregates (db : DB) (query : String) :
    ∃ out, fetchFilteredCustomersOn db query = Except.ok out ∧
      ∀ r ∈ out,
        r.total_invoices =
          (db.invoices.filter (fun inv => inv.customer_id == r.id)).length ∧
        r.total_pending =
          (((db.invoices.filter (fun inv => inv.customer_id == r.id)).filter
            (fun inv => inv.status == "pending")).map (fun inv => inv.amount)).sum ∧
        r.total_paid =
          (((db.invoices.filter (fun inv => inv.customer_id == r.id)).filter
            (fun inv => inv.status == "paid")).map (fun inv => inv.amount)).sum ∧
        ((db.invoices.filter (fun inv => inv.customer_id == r.id)) = [] →
          r.total_invoices = 0 ∧ r.total_pending = 0 ∧ r.total_paid = 0) := by
  refine ⟨_, rfl, ?_⟩
  intro r hr
  obtain ⟨row, hrow, rfl⟩ := List.mem_map.mp hr
  unfold customersQueryRows at hrow
  obtain ⟨c, hc, rfl⟩ := List.mem_map.mp hrow
  exact c8_pointwise db c

/-- Witness for C8 on `w5db` and the empty query. -/
theorem c8_witness :
    ∃ out, fetchFilteredCustomersOn w5db emptyQuery = Except.ok out ∧
      ∀ r ∈ out,
        r.total_invoices =
          (w5db.invoices.filter (fun inv => inv.customer_id == r.id)).length ∧
        r.total_pending =
          (((w5db.invoices.filter (fun inv => inv.customer_id == r.id)).filter
            (fun inv => inv.status == "pending")).map (fun inv => inv.amount)).sum ∧
        r.total_paid =
          (((w5db.invoices.filter (fun inv => inv.customer_id == r.id)).filter
            (fun inv => inv.status == "paid")).map (fun inv => inv.amount)).sum ∧
        ((w5db.invoices.filter (fun inv => inv.customer_id == r.id)) = [] →
          r.total_invoices = 0 ∧ r.total_pending = 0 ∧ r.total_paid = 0) :=
  c8_filteredCustomers_aggregates w5db emptyQuery

end NextjsDashboard
